import Mathlib

/-!
Verification development for the Airbnb dashboard data pipeline
(`data_processor.py` and the loading wrapper in `dashboard.py`).

Modelling conventions:
* A raw CSV cell is a `RawVal`: missing (pandas `NaN`), a string, or a number.
* Python floats are modelled as rationals `ℚ`; the missing sentinel `NaN`
  produced by the cleaning functions is modelled as `none : Option ℚ`
  (pandas comparisons with `NaN` are false, which `Option` captures below).
* A DataFrame is a `List` of records; column operations become per-record
  functions mapped over the list.
-/

set_option maxRecDepth 20000

namespace AirBnb

/-- A raw cell value as it arrives from `pd.read_csv`: missing (`NaN`),
a string, or a numeric value. -/
inductive RawVal where
  | missing : RawVal
  | str : String → RawVal
  | num : ℚ → RawVal
deriving DecidableEq, Repr

/-- Python `str.strip()`: remove leading and trailing whitespace. -/
def trimChars (cs : List Char) : List Char :=
  ((cs.dropWhile Char.isWhitespace).reverse.dropWhile Char.isWhitespace).reverse

/-- Value of an unsigned decimal literal `digits [. digits]`, as accepted by
Python `float` (exponents and special values are out of scope for this data).
`none` when the character list is not such a literal. -/
def parseUnsigned (cs : List Char) : Option ℚ :=
  let intPart := cs.takeWhile (fun c => c ≠ '.')
  let rest := cs.dropWhile (fun c => c ≠ '.')
  let digitsVal : List Char → Nat :=
    fun ds => ds.foldl (fun a c => a * 10 + (c.toNat - '0'.toNat)) 0
  match rest with
  | [] =>
      if intPart ≠ [] ∧ intPart.all Char.isDigit then
        some (digitsVal intPart : ℚ)
      else none
  | '.' :: fracPart =>
      if (intPart ≠ [] ∨ fracPart ≠ []) ∧ intPart.all Char.isDigit ∧
          fracPart.all Char.isDigit ∧ ¬ fracPart.contains '.' then
        let denom : Nat := 10 ^ fracPart.length
        some (Rat.divInt (digitsVal intPart * denom + digitsVal fracPart) denom)
      else none
  | _ => none

/-- Python `float(s)` on the strings this pipeline produces: optional sign,
then an unsigned decimal literal; anything else fails (`none`). -/
def parseFloatChars (cs : List Char) : Option ℚ :=
  match cs with
  | '+' :: r => parseUnsigned r
  | '-' :: r => (parseUnsigned r).map (fun q => -q)
  | r => parseUnsigned r

/-- Python `float` applied to a whole string (whitespace around the number
is ignored, as `float` does). -/
def parseFloat (s : String) : Option ℚ :=
  parseFloatChars (trimChars s.toList)

/-- `convert_european_decimal` from `data_processor.py`: missing / empty
string / numeric zero give the missing sentinel, other numbers pass through,
strings are trimmed, commas become periods, and the result is parsed as a
float; unparsable input gives the missing sentinel. -/
def convert_european_decimal : RawVal → Option ℚ
  | .missing => none
  | .str s =>
      if s = "" then none
      else parseFloatChars ((trimChars s.toList).map (fun c => if c = ',' then '.' else c))
  | .num q => if q = 0 then none else some q

/-- `clean_price` from `data_processor.py`: missing / empty string give the
missing sentinel, numbers pass through, strings are trimmed, currency symbols
and internal spaces are removed, a comma (with no period present) is a decimal
point when exactly 2 digits follow the last comma and a thousands separator
otherwise, and the result is parsed as a float; unparsable input gives the
missing sentinel. -/
def clean_price : RawVal → Option ℚ
  | .missing => none
  | .str s =>
      if s = "" then none
      else
        let cs := trimChars s.toList
        let cs := cs.filter (fun c => c ≠ '$' ∧ c ≠ '€' ∧ c ≠ '£')
        let cs := cs.filter (fun c => c ≠ ' ')
        let cs :=
          if cs.contains ',' ∧ ¬ cs.contains '.' then
            -- length of the group after the last comma, i.e. `parts[-1]`
            if (cs.reverse.takeWhile (fun c => c ≠ ',')).length = 2 then
              cs.map (fun c => if c = ',' then '.' else c)
            else cs.filter (fun c => c ≠ ',')
          else cs
        parseFloatChars cs
  | .num q => some q

/-- Truncation toward zero, Python `int` on a float. -/
def truncQ (q : ℚ) : Int := q.num.tdiv (q.den : Int)

/-- `clean_host_since` from `data_processor.py`: `int(float(value))` with
missing/empty/unparsable giving the missing sentinel. -/
def clean_host_since : RawVal → Option Int
  | .missing => none
  | .str s => if s = "" then none else (parseFloat s).map truncQ
  | .num q => some (truncQ q)

/-- `ROOM_TYPE_MAP` from `data_processor.py`. -/
def ROOM_TYPE_MAP : List (Int × String) :=
  [(1, "Private Room"), (2, "Entire Home/Apt"), (3, "Shared Room"), (4, "Hotel Room")]

/-- `CORRECT_CITY_AREA` from `data_processor.py` (fixes incorrect area data). -/
def CORRECT_CITY_AREA : List (String × String) :=
  [("Toronto", "North America"), ("NewYork", "North America"),
   ("Amsterdam", "Europe"), ("Berlin", "Europe"), ("Dublin", "Europe"),
   ("Munich", "Europe"), ("Hongkong", "Asia"), ("Singapore", "Asia"),
   ("Sydney", "Oceania"), ("Tokyo", "Asia")]

/-- `CITY_COORDINATES` from `data_processor.py` (latitude, longitude). -/
def CITY_COORDINATES : List (String × ℚ × ℚ) :=
  [("Toronto", 43.6532, -79.3832), ("NewYork", 40.7128, -74.0060),
   ("Amsterdam", 52.3676, 4.9041), ("Berlin", 52.5200, 13.4050),
   ("Dublin", 53.3498, -6.2603), ("Hongkong", 22.3193, 114.1694),
   ("Munich", 48.1351, 11.5820), ("Singapore", 1.3521, 103.8198),
   ("Sydney", -33.8688, 151.2093), ("Tokyo", 35.6762, 139.6503)]

/-- One raw CSV row, with the columns the pipeline touches. The count
columns (`accommodates`, `bedrooms`, `beds`, `total reviewers number`,
`sales`) arrive from `read_csv` as numbers or `NaN`; `pd.to_numeric` is
the identity on them. -/
structure RawRecord where
  id : Nat
  host_id : Nat
  city : String
  area : String
  room_type : Option Int
  price : RawVal
  bathrooms : RawVal
  consumer : RawVal
  host_response_rate : RawVal
  host_acceptance_rate : RawVal
  host_since : RawVal
  host_certification : Option ℚ
  guest_favourite : Option ℚ
  accommodates : Option ℚ
  bedrooms : Option ℚ
  beds : Option ℚ
  total_reviewers : Option ℚ
  sales : Option ℚ
deriving DecidableEq, Repr

/-- A cleaned row: the raw identifying columns plus every derived column
added by `load_and_clean_data`. -/
structure CleanRecord where
  id : Nat
  host_id : Nat
  city : String
  area : String
  price_clean : Option ℚ
  bathrooms_clean : Option ℚ
  consumer_clean : Option ℚ
  host_response_rate_clean : Option ℚ
  host_acceptance_rate_clean : Option ℚ
  room_type_decoded : String
  revenue_estimate : Option ℚ
  host_since_clean : Option Int
  city_lat : Option ℚ
  city_lon : Option ℚ
  host_certified : Bool
  guest_favourite : Bool
  accommodates : Option ℚ
  bedrooms : Option ℚ
  beds : Option ℚ
  total_reviewers : Option ℚ
  sales : Option ℚ
deriving DecidableEq, Repr

/-- `NaN`-propagating product, pandas `series * series`. -/
def omul (a b : Option ℚ) : Option ℚ :=
  match a, b with
  | some x, some y => some (x * y)
  | _, _ => none

/-- Steps 1–13 of `load_and_clean_data` for one row: every derived column,
including the area correction, before the fallback fills. -/
def deriveRecord (r : RawRecord) : CleanRecord :=
  { id := r.id
    host_id := r.host_id
    city := r.city
    area := (CORRECT_CITY_AREA.lookup r.city).getD r.area
    price_clean := clean_price r.price
    bathrooms_clean := convert_european_decimal r.bathrooms
    consumer_clean := convert_european_decimal r.consumer
    host_response_rate_clean := convert_european_decimal r.host_response_rate
    host_acceptance_rate_clean := convert_european_decimal r.host_acceptance_rate
    room_type_decoded := (r.room_type.bind (fun c => ROOM_TYPE_MAP.lookup c)).getD "Unknown"
    revenue_estimate := omul (clean_price r.price) r.sales
    host_since_clean := clean_host_since r.host_since
    city_lat := (CITY_COORDINATES.lookup r.city).map Prod.fst
    city_lon := (CITY_COORDINATES.lookup r.city).map Prod.snd
    host_certified := decide (r.host_certification.getD 0 ≠ 0)
    guest_favourite := decide (r.guest_favourite.getD 0 ≠ 0)
    accommodates := r.accommodates
    bedrooms := r.bedrooms
    beds := r.beds
    total_reviewers := r.total_reviewers
    sales := r.sales }

/-- The final fallback fills of `load_and_clean_data` (step "13. Fill missing
values for key metrics"): missing `bedrooms` → 0, missing `bathrooms_clean`
→ 1, missing `beds` → 1. -/
def applyFills (c : CleanRecord) : CleanRecord :=
  { c with
    bedrooms := some (c.bedrooms.getD 0)
    bathrooms_clean := some (c.bathrooms_clean.getD 1)
    beds := some (c.beds.getD 1) }

/-- Full per-row cleaning: derivation then fills, in source order. -/
def cleanRecord (r : RawRecord) : CleanRecord :=
  applyFills (deriveRecord r)

/-- Lexicographic comparison of character lists by code point, Python `<=`
on strings. -/
def charsLe : List Char → List Char → Bool
  | [], _ => true
  | _ :: _, [] => false
  | a :: as, b :: bs => if a < b then true else if a = b then charsLe as bs else false

/-- Python `<=` on strings. -/
def strLe (a b : String) : Bool := charsLe a.toList b.toList

/-- `<=` on naturals as a boolean, for sorting host ids. -/
def natLe (a b : Nat) : Bool := a ≤ b

/-- Insert into a sorted list (insertion sort step). -/
def insertLe {α : Type} (le : α → α → Bool) (a : α) : List α → List α
  | [] => [a]
  | b :: bs => if le a b then a :: b :: bs else b :: insertLe le a bs

/-- Insertion sort by a boolean comparison, Python `sorted`. -/
def sortLe {α : Type} (le : α → α → Bool) : List α → List α
  | [] => []
  | a :: as => insertLe le a (sortLe le as)

/-- Python `sorted(column.unique().tolist())`. -/
def sortedUnique {α : Type} [BEq α] (le : α → α → Bool) (l : List α) : List α :=
  sortLe le l.eraseDups

/-- pandas `Series.mean()`: skip missing values; `NaN` when none remain. -/
def omean (l : List (Option ℚ)) : Option ℚ :=
  let v := l.reduceOption
  if v.isEmpty then none else some (v.sum / (v.length : ℚ))

/-- pandas `Series.sum()`: skip missing values; 0 when none remain. -/
def osum (l : List (Option ℚ)) : ℚ :=
  (l.reduceOption).sum

/-- The `stats` dictionary built at the end of `load_and_clean_data`
(the date/price/rating range entries are omitted; no property here uses
them). -/
structure Stats where
  total_listings : Nat
  original_count : Nat
  cities : Nat
  areas : Nat
  unique_cities : List String
  unique_areas : List String
  unique_room_types : List String
  avg_price : Option ℚ
  avg_rating : Option ℚ
  total_hosts : Nat
deriving DecidableEq, Repr

/-- The statistics summary computed from the cleaned rows. -/
def computeStats (originalCount : Nat) (df : List CleanRecord) : Stats :=
  { total_listings := df.length
    original_count := originalCount
    cities := (sortedUnique strLe (df.map (fun c => c.city))).length
    areas := (sortedUnique strLe (df.map (fun c => c.area))).length
    unique_cities := sortedUnique strLe (df.map (fun c => c.city))
    unique_areas := sortedUnique strLe (df.map (fun c => c.area))
    unique_room_types := sortedUnique strLe (df.map (fun c => c.room_type_decoded))
    avg_price := omean (df.map (fun c => c.price_clean))
    avg_rating := omean (df.map (fun c => c.consumer_clean))
    total_hosts := (sortedUnique natLe (df.map (fun c => c.host_id))).length }

/-- An exception raised while reading the input file: `FileNotFoundError`
or any other error, each carrying its message. -/
inductive LoadErr where
  | fileNotFound : String → LoadErr
  | other : String → LoadErr
deriving DecidableEq, Repr

/-- `str(e)` of a load exception. -/
def LoadErr.msg : LoadErr → String
  | .fileNotFound m => m
  | .other m => m

/-- `load_and_clean_data` from `data_processor.py`. Its `pd.read_csv` call
is the `input` argument: either the parsed rows or the exception it raised.
The function installs no handler, so a read failure propagates and no
partial result is produced. -/
def load_and_clean_data (input : Except LoadErr (List RawRecord)) :
    Except LoadErr (List CleanRecord × Stats) :=
  match input with
  | .error e => .error e
  | .ok rows =>
      let df := rows.map cleanRecord
      .ok (df, computeStats rows.length df)

/-- `load_data` from `dashboard.py`: try the primary path, on
`FileNotFoundError` retry the alternative path, and turn any failure into
`(None, None, str(e))` for the caller to surface. The result pairs the
optional data with the optional error message. -/
def load_data (primary alt : Except LoadErr (List RawRecord)) :
    Option (List CleanRecord × Stats) × Option String :=
  match load_and_clean_data primary with
  | .ok p => (some p, none)
  | .error (.fileNotFound _) =>
      match load_and_clean_data alt with
      | .ok p => (some p, none)
      | .error e => (none, some e.msg)
  | .error (.other m) => (none, some m)

/-- pandas `series >= bound`: false on the missing sentinel. -/
def oGe (x : Option ℚ) (b : ℚ) : Bool :=
  match x with
  | some v => decide (b ≤ v)
  | none => false

/-- pandas `series <= bound`: false on the missing sentinel. -/
def oLe (x : Option ℚ) (b : ℚ) : Bool :=
  match x with
  | some v => decide (v ≤ b)
  | none => false

/-- A membership block of `filter_data`: `if lst and len(lst) > 0:
filtered = filtered[filtered[col].isin(lst)]`. `None` and `[]` are falsy,
hence no constraint. -/
def listStep (sel : Option (List String)) (key : CleanRecord → String)
    (l : List CleanRecord) : List CleanRecord :=
  match sel with
  | some v => if ¬ v.isEmpty then l.filter (fun r => v.contains (key r)) else l
  | none => l

/-- The price block of `filter_data`: keep rows with
`price_range[0] <= price_clean <= price_range[1]` (both ends inclusive;
a missing price satisfies neither comparison). -/
def priceStep (pr : Option (ℚ × ℚ)) (l : List CleanRecord) : List CleanRecord :=
  match pr with
  | some p => l.filter (fun r => oGe r.price_clean p.1 && oLe r.price_clean p.2)
  | none => l

/-- A minimum-threshold block of `filter_data`: applied only when the
minimum is positive (`if m > 0:`). -/
def threshStep (m : ℚ) (val : CleanRecord → Option ℚ)
    (l : List CleanRecord) : List CleanRecord :=
  if 0 < m then l.filter (fun r => oGe (val r) m) else l

/-- A boolean-flag block of `filter_data`: applied only when the flag is
set. -/
def boolStep (b : Bool) (flag : CleanRecord → Bool)
    (l : List CleanRecord) : List CleanRecord :=
  if b then l.filter flag else l

/-- `filter_data` from `data_processor.py`: the blocks applied in source
order, starting from `df.copy()`. `none` stands for an omitted (`None`)
argument. -/
def filter_data (df : List CleanRecord)
    (cities areas room_types : Option (List String))
    (price_range : Option (ℚ × ℚ))
    (min_reviews min_rating : ℚ)
    (guest_favourites_only certified_hosts_only : Bool) : List CleanRecord :=
  let filtered := df
  let filtered := listStep cities (fun r => r.city) filtered
  let filtered := listStep areas (fun r => r.area) filtered
  let filtered := listStep room_types (fun r => r.room_type_decoded) filtered
  let filtered := priceStep price_range filtered
  let filtered := threshStep min_reviews (fun r => r.total_reviewers) filtered
  let filtered := threshStep min_rating (fun r => r.consumer_clean) filtered
  let filtered := boolStep guest_favourites_only (fun r => r.guest_favourite) filtered
  let filtered := boolStep certified_hosts_only (fun r => r.host_certified) filtered
  filtered

/-- The rows of a `groupby` bucket for one key (within-group order is the
frame order, as in pandas). -/
def groupOf (df : List CleanRecord) (k : String) : List CleanRecord :=
  df.filter (fun r => r.city == k)

/-- pandas `Series.idxmax()` over (sorted group key, value) pairs: the first
key whose present value is maximal; missing values are skipped. -/
def idxmaxO (l : List (String × Option ℚ)) : String :=
  (l.foldl
    (fun acc kv =>
      match kv.2 with
      | none => acc
      | some v =>
          match acc with
          | none => some (kv.1, v)
          | some best => if best.2 < v then some (kv.1, v) else some best)
    none).elim "N/A" (fun best => best.1)

/-- The per-city value in `best_value_city`: mean rating over mean price,
with a non-positive (or missing) mean price giving 0 instead of dividing. -/
def cityValue (g : List CleanRecord) : Option ℚ :=
  match omean (g.map (fun r => r.price_clean)) with
  | some m =>
      if 0 < m then (omean (g.map (fun r => r.consumer_clean))).map (fun x => x / m)
      else some 0
  | none => some 0

/-- The dictionary returned by `calculate_guest_metrics`. -/
structure GuestMetrics where
  total_properties : Nat
  avg_price : Option ℚ
  avg_rating : Option ℚ
  pct_favourites : ℚ
  most_popular_city : String
  best_value_city : String
deriving DecidableEq, Repr

/-- `calculate_guest_metrics` from `data_processor.py`; every entry guarded
by `if len(df) > 0 else` its zero/`"N/A"` default. -/
def calculate_guest_metrics (df : List CleanRecord) : GuestMetrics :=
  { total_properties := df.length
    avg_price := if 0 < df.length then omean (df.map (fun r => r.price_clean)) else some 0
    avg_rating := if 0 < df.length then omean (df.map (fun r => r.consumer_clean)) else some 0
    pct_favourites :=
      if 0 < df.length then ((df.countP (fun r => r.guest_favourite)) : ℚ) / (df.length : ℚ) * 100
      else 0
    most_popular_city :=
      if 0 < df.length then
        idxmaxO ((sortedUnique strLe (df.map (fun r => r.city))).map
          (fun k => (k, some (((groupOf df k).length : ℚ)))))
      else "N/A"
    best_value_city :=
      if 0 < df.length then
        idxmaxO ((sortedUnique strLe (df.map (fun r => r.city))).map
          (fun k => (k, cityValue (groupOf df k))))
      else "N/A" }

/-- The dictionary returned by `calculate_host_metrics`. -/
structure HostMetrics where
  total_revenue : ℚ
  avg_occupancy : Option ℚ
  total_hosts : Nat
  avg_listings_per_host : Option ℚ
  pct_certified : ℚ
  best_city : String
deriving DecidableEq, Repr

/-- `calculate_host_metrics` from `data_processor.py`; every entry guarded
by `if len(df) > 0 else` its zero/`"N/A"` default. -/
def calculate_host_metrics (df : List CleanRecord) : HostMetrics :=
  { total_revenue := if 0 < df.length then osum (df.map (fun r => r.revenue_estimate)) else 0
    avg_occupancy :=
      if 0 < df.length then (omean (df.map (fun r => r.sales))).map (fun m => m / 365 * 100)
      else some 0
    total_hosts := if 0 < df.length then (sortedUnique natLe (df.map (fun r => r.host_id))).length else 0
    avg_listings_per_host :=
      if 0 < df.length then
        omean ((sortedUnique natLe (df.map (fun r => r.host_id))).map
          (fun h => some (((df.filter (fun r => r.host_id == h)).length : ℚ))))
      else some 0
    pct_certified :=
      if 0 < df.length then ((df.countP (fun r => r.host_certified)) : ℚ) / (df.length : ℚ) * 100
      else 0
    best_city :=
      if 0 < df.length then
        idxmaxO ((sortedUnique strLe (df.map (fun r => r.city))).map
          (fun k => (k, some (osum ((groupOf df k).map (fun r => r.revenue_estimate))))))
      else "N/A" }

/-- The first row of the spec's scenario: `city="Tokyo"` with a wrong raw
area `"Europe"`, `price="1,250"`, `rating="6,5"`. -/
def sampleTokyo : RawRecord :=
  { id := 1
    host_id := 10
    city := "Tokyo"
    area := "Europe"
    room_type := some 1
    price := .str "1,250"
    bathrooms := .str "1,5"
    consumer := .str "6,5"
    host_response_rate := .str "0,9"
    host_acceptance_rate := .missing
    host_since := .num 100
    host_certification := some 1
    guest_favourite := some 1
    accommodates := some 2
    bedrooms := none
    beds := none
    total_reviewers := some 12
    sales := some 100 }

/-- The second row of the spec's scenario: a city absent from the correction
table, raw area `"Oceania"`, `price="$80"`, an unmapped room-type code. -/
def sampleUnknownCity : RawRecord :=
  { sampleTokyo with
    id := 2
    host_id := 11
    city := "Unknown City"
    area := "Oceania"
    price := .str "$80"
    room_type := some 9
    guest_favourite := none }

/-- A row whose price, rating and review count are unparsable or absent. -/
def sampleNoPrice : RawRecord :=
  { sampleTokyo with
    id := 3
    city := "Sydney"
    area := "Europe"
    price := .str "n/a"
    consumer := .missing
    total_reviewers := none }

/-- A row with a numeric zero price (kept by `clean_price`). -/
def sampleZeroPrice : RawRecord :=
  { sampleTokyo with id := 4, price := .num 0 }

/-! ### Helper lemmas -/

theorem oGe_eq_true_iff {x : Option ℚ} {b : ℚ} :
    oGe x b = true ↔ ∃ p, x = some p ∧ b ≤ p := by
  cases x <;> simp [oGe]

theorem oGe_oLe_eq_true_iff {x : Option ℚ} {lo hi : ℚ} :
    (oGe x lo && oLe x hi) = true ↔ ∃ p, x = some p ∧ lo ≤ p ∧ p ≤ hi := by
  cases x <;> simp [oGe, oLe, and_assoc]

theorem mem_listStep {sel : Option (List String)} {key : CleanRecord → String}
    {l : List CleanRecord} {c : CleanRecord} :
    c ∈ listStep sel key l ↔ c ∈ l ∧ (∀ v, sel = some v → v ≠ [] → key c ∈ v) := by
  cases sel with
  | none => simp [listStep]
  | some v =>
      cases v with
      | nil => simp [listStep]
      | cons a as => simp [listStep, List.mem_filter]

theorem mem_priceStep {pr : Option (ℚ × ℚ)} {l : List CleanRecord} {c : CleanRecord} :
    c ∈ priceStep pr l ↔
      c ∈ l ∧ (∀ lo hi, pr = some (lo, hi) → ∃ p, c.price_clean = some p ∧ lo ≤ p ∧ p ≤ hi) := by
  cases pr with
  | none => simp [priceStep]
  | some p =>
      obtain ⟨lo, hi⟩ := p
      cases hc : c.price_clean <;>
        simp [priceStep, List.mem_filter, oGe, oLe, hc, and_assoc]

theorem mem_threshStep {m : ℚ} {val : CleanRecord → Option ℚ}
    {l : List CleanRecord} {c : CleanRecord} :
    c ∈ threshStep m val l ↔ c ∈ l ∧ (0 < m → ∃ p, val c = some p ∧ m ≤ p) := by
  by_cases h : 0 < m
  · simp [threshStep, h, List.mem_filter, oGe_eq_true_iff]
  · simp [threshStep, h]

theorem mem_boolStep {b : Bool} {flag : CleanRecord → Bool}
    {l : List CleanRecord} {c : CleanRecord} :
    c ∈ boolStep b flag l ↔ c ∈ l ∧ (b = true → flag c = true) := by
  cases b <;> simp [boolStep, List.mem_filter]

theorem mem_filter_data {df : List CleanRecord}
    {cities areas room_types : Option (List String)} {pr : Option (ℚ × ℚ)}
    {minRev minRat : ℚ} {gf cert : Bool} {c : CleanRecord} :
    c ∈ filter_data df cities areas room_types pr minRev minRat gf cert ↔
      c ∈ df ∧
      (∀ v, cities = some v → v ≠ [] → c.city ∈ v) ∧
      (∀ v, areas = some v → v ≠ [] → c.area ∈ v) ∧
      (∀ v, room_types = some v → v ≠ [] → c.room_type_decoded ∈ v) ∧
      (∀ lo hi, pr = some (lo, hi) → ∃ p, c.price_clean = some p ∧ lo ≤ p ∧ p ≤ hi) ∧
      (0 < minRev → ∃ p, c.total_reviewers = some p ∧ minRev ≤ p) ∧
      (0 < minRat → ∃ p, c.consumer_clean = some p ∧ minRat ≤ p) ∧
      (gf = true → c.guest_favourite = true) ∧
      (cert = true → c.host_certified = true) := by
  unfold filter_data
  simp only [mem_boolStep, mem_threshStep, mem_priceStep, mem_listStep]
  tauto

theorem listStep_sublist {sel : Option (List String)} {key : CleanRecord → String}
    {l : List CleanRecord} : (listStep sel key l).Sublist l := by
  cases sel with
  | none => exact List.Sublist.refl l
  | some v =>
      simp only [listStep]
      split
      · exact List.filter_sublist l
      · exact List.Sublist.refl l

theorem priceStep_sublist {pr : Option (ℚ × ℚ)} {l : List CleanRecord} :
    (priceStep pr l).Sublist l := by
  cases pr with
  | none => exact List.Sublist.refl l
  | some p => exact List.filter_sublist l

theorem threshStep_sublist {m : ℚ} {val : CleanRecord → Option ℚ} {l : List CleanRecord} :
    (threshStep m val l).Sublist l := by
  unfold threshStep
  split
  · exact List.filter_sublist l
  · exact List.Sublist.refl l

theorem boolStep_sublist {b : Bool} {flag : CleanRecord → Bool} {l : List CleanRecord} :
    (boolStep b flag l).Sublist l := by
  unfold boolStep
  split
  · exact List.filter_sublist l
  · exact List.Sublist.refl l

theorem filter_data_sublist {df : List CleanRecord}
    {cities areas room_types : Option (List String)} {pr : Option (ℚ × ℚ)}
    {minRev minRat : ℚ} {gf cert : Bool} :
    (filter_data df cities areas room_types pr minRev minRat gf cert).Sublist df := by
  unfold filter_data
  exact boolStep_sublist.trans (boolStep_sublist.trans (threshStep_sublist.trans
    (threshStep_sublist.trans (priceStep_sublist.trans (listStep_sublist.trans
      (listStep_sublist.trans listStep_sublist))))))

theorem lookup_map_snd {α β : Type} [BEq α] (l : List (α × β)) (a : α) (b : β)
    (h : l.lookup a = some b) : b ∈ l.map Prod.snd := by
  induction l with
  | nil => simp [List.lookup] at h
  | cons hd tl ih =>
      obtain ⟨k, v⟩ := hd
      by_cases hk : a == k
      · simp [List.lookup, hk] at h
        simp [h]
      · simp [List.lookup, hk] at h
        simp [ih h]

/-! ### Claim theorems -/

/-- C1: for every cleaned record whose city appears in `CORRECT_CITY_AREA`,
the `area` field equals the table's value regardless of the raw input's
area; for a city not in the table the raw area value is kept; and the
statistics summary's sorted unique-areas list is computed from the
corrected areas. -/
theorem area_correction_overrides (rs : List RawRecord) (r : RawRecord) :
    (cleanRecord r).area = (CORRECT_CITY_AREA.lookup r.city).getD r.area ∧
    (∀ a, CORRECT_CITY_AREA.lookup r.city = some a → (cleanRecord r).area = a) ∧
    (CORRECT_CITY_AREA.lookup r.city = none → (cleanRecord r).area = r.area) ∧
    (∀ df st, load_and_clean_data (Except.ok rs) = Except.ok (df, st) →
      st.unique_areas =
        sortedUnique strLe (rs.map (fun x => (CORRECT_CITY_AREA.lookup x.city).getD x.area))) := by
  refine ⟨rfl, ?_, ?_, ?_⟩
  · intro a ha
    show (CORRECT_CITY_AREA.lookup r.city).getD r.area = a
    rw [ha]; rfl
  · intro ha
    show (CORRECT_CITY_AREA.lookup r.city).getD r.area = r.area
    rw [ha]; rfl
  · intro df st h
    have h2 : st = computeStats rs.length (rs.map cleanRecord) :=
      ((Prod.mk.inj (Except.ok.inj h)).2).symm
    rw [h2]
    show sortedUnique strLe ((rs.map cleanRecord).map (fun c => c.area)) = _
    rw [List.map_map]
    rfl

/-- Witness for C1 on the spec's scenario rows: the Tokyo row's wrong raw
area `"Europe"` is corrected to `"Asia"`, the unmapped city keeps its raw
`"Oceania"`, and the stats summary lists the corrected areas sorted. -/
theorem area_correction_overrides_witness :
    (cleanRecord sampleTokyo).area = "Asia" ∧
    (cleanRecord sampleUnknownCity).area = "Oceania" ∧
    (computeStats 2 ([sampleTokyo, sampleUnknownCity].map cleanRecord)).unique_areas =
      ["Asia", "Oceania"] :=
  ⟨(area_correction_overrides [] sampleTokyo).2.1 "Asia" (by decide),
   (area_correction_overrides [] sampleUnknownCity).2.2.1 (by decide),
   ((area_correction_overrides [sampleTokyo, sampleUnknownCity] sampleTokyo).2.2.2 _ _
      rfl).trans (by with_unfolding_all decide)⟩

/-- C3: `clean_price` maps missing/empty input to the missing sentinel,
passes numeric input through as float, strips whitespace, currency symbols
and internal spaces from strings, treats a comma (with no period) as a
decimal point exactly when 2 digits follow the last comma and as a
thousands separator otherwise, and yields the missing sentinel on anything
unparsable; in particular the spec's four test values. -/
theorem clean_price_spec :
    clean_price RawVal.missing = none ∧
    clean_price (RawVal.str "") = none ∧
    (∀ q : ℚ, clean_price (RawVal.num q) = some q) ∧
    clean_price (RawVal.str "1,250") = some 1250 ∧
    clean_price (RawVal.str "45,00") = some 45 ∧
    clean_price (RawVal.str "$99") = some 99 ∧
    clean_price (RawVal.str " € 1 234 ") = some 1234 ∧
    clean_price (RawVal.str "12,3456") = some 123456 ∧
    clean_price (RawVal.str "£1,250.00") = none ∧
    clean_price (RawVal.str "not a price") = none := by
  refine ⟨rfl, by decide, fun q => rfl, ?_, ?_, ?_, ?_, ?_, ?_, ?_⟩ <;> decide

/-- C4: `convert_european_decimal` maps missing, empty-string and
numeric-zero input to the missing sentinel, passes other numeric input
through, converts comma-decimal strings after trimming, and yields the
missing sentinel on anything unparsable; in particular `"6,81"` gives 6.81
and numeric 0 is missing. -/
theorem convert_european_decimal_spec :
    convert_european_decimal RawVal.missing = none ∧
    convert_european_decimal (RawVal.str "") = none ∧
    convert_european_decimal (RawVal.num 0) = none ∧
    (∀ q : ℚ, q ≠ 0 → convert_european_decimal (RawVal.num q) = some q) ∧
    convert_european_decimal (RawVal.str "6,81") = some (Rat.divInt 681 100) ∧
    convert_european_decimal (RawVal.str " 0,9 ") = some (Rat.divInt 9 10) ∧
    convert_european_decimal (RawVal.str "abc") = none := by
  refine ⟨rfl, by decide, by decide, ?_, by decide, by decide, by decide⟩
  intro q hq
  simp [convert_european_decimal, hq]

/-- Witness for C4's pass-through clause at the nonzero number 5. -/
theorem convert_european_decimal_spec_witness :
    convert_european_decimal (RawVal.num 5) = some 5 :=
  convert_european_decimal_spec.2.2.2.1 5 (by decide)

/-- C6: `room_type_decoded` is never missing: it is always one of the four
labels of `ROOM_TYPE_MAP` or `"Unknown"`, and every unmapped or missing
room-type code yields `"Unknown"`. -/
theorem room_type_decoded_total (r : RawRecord) :
    (cleanRecord r).room_type_decoded ∈
      ["Private Room", "Entire Home/Apt", "Shared Room", "Hotel Room", "Unknown"] ∧
    (r.room_type.bind (fun code => ROOM_TYPE_MAP.lookup code) = none →
      (cleanRecord r).room_type_decoded = "Unknown") := by
  have hdec : (cleanRecord r).room_type_decoded
      = (r.room_type.bind (fun code => ROOM_TYPE_MAP.lookup code)).getD "Unknown" := rfl
  constructor
  · rw [hdec]
    cases hb : r.room_type.bind (fun code => ROOM_TYPE_MAP.lookup code) with
    | none => simp
    | some s =>
        cases hr : r.room_type with
        | none => rw [hr] at hb; exact Option.noConfusion hb
        | some n =>
            rw [hr] at hb
            have hmem := lookup_map_snd ROOM_TYPE_MAP n s hb
            simp only [ROOM_TYPE_MAP, List.map_cons, List.map_nil, List.mem_cons,
              List.not_mem_nil, or_false] at hmem
            simp only [Option.getD_some]
            rcases hmem with h | h | h | h <;> simp [h]
  · intro h
    rw [hdec, h]
    rfl

/-- Witness for C6 at the unmapped room-type code 9. -/
theorem room_type_decoded_total_witness :
    (cleanRecord sampleUnknownCity).room_type_decoded = "Unknown" :=
  (room_type_decoded_total sampleUnknownCity).2 (by decide)

/-- C7: `revenue_estimate` is `price_clean` times the raw `sales` value,
and the fallback fills (bedrooms→0, bathrooms_clean→1, beds→1) are applied
last, after all derived fields, leaving every other field — in particular
`revenue_estimate` — unchanged. -/
theorem revenue_before_fills (r : RawRecord) (c : CleanRecord) :
    (cleanRecord r).revenue_estimate = omul (clean_price r.price) r.sales ∧
    (cleanRecord r).revenue_estimate = (deriveRecord r).revenue_estimate ∧
    cleanRecord r = applyFills (deriveRecord r) ∧
    (applyFills c).bedrooms = some (c.bedrooms.getD 0) ∧
    (applyFills c).bathrooms_clean = some (c.bathrooms_clean.getD 1) ∧
    (applyFills c).beds = some (c.beds.getD 1) ∧
    (applyFills c).id = c.id ∧
    (applyFills c).host_id = c.host_id ∧
    (applyFills c).city = c.city ∧
    (applyFills c).area = c.area ∧
    (applyFills c).price_clean = c.price_clean ∧
    (applyFills c).consumer_clean = c.consumer_clean ∧
    (applyFills c).host_response_rate_clean = c.host_response_rate_clean ∧
    (applyFills c).host_acceptance_rate_clean = c.host_acceptance_rate_clean ∧
    (applyFills c).room_type_decoded = c.room_type_decoded ∧
    (applyFills c).revenue_estimate = c.revenue_estimate ∧
    (applyFills c).host_since_clean = c.host_since_clean ∧
    (applyFills c).city_lat = c.city_lat ∧
    (applyFills c).city_lon = c.city_lon ∧
    (applyFills c).host_certified = c.host_certified ∧
    (applyFills c).guest_favourite = c.guest_favourite ∧
    (applyFills c).accommodates = c.accommodates ∧
    (applyFills c).total_reviewers = c.total_reviewers ∧
    (applyFills c).sales = c.sales := by
  refine ⟨rfl, rfl, rfl, ?_, ?_, ?_, ?_, ?_, ?_, ?_, ?_, ?_, ?_, ?_, ?_, ?_, ?_, ?_, ?_,
    ?_, ?_, ?_, ?_, ?_⟩ <;> rfl

/-- C8: a failed file read propagates out of `load_and_clean_data`
unhandled, the dashboard's `load_data` surfaces it as a single error
message with no data, and `load_data` never returns data and an error
together (no partial result). -/
theorem load_failure_no_partial :
    (∀ e : LoadErr, load_and_clean_data (Except.error e) = Except.error e) ∧
    (∀ (m : String) (alt : Except LoadErr (List RawRecord)),
      load_data (Except.error (LoadErr.other m)) alt = (none, some m)) ∧
    (∀ (m : String) (e2 : LoadErr),
      load_data (Except.error (LoadErr.fileNotFound m)) (Except.error e2) =
        (none, some e2.msg)) ∧
    (∀ primary alt, (∃ d, load_data primary alt = (some d, none)) ∨
      (∃ msg, load_data primary alt = (none, some msg))) := by
  refine ⟨fun e => rfl, fun m alt => rfl, fun m e2 => rfl, fun primary alt => ?_⟩
  rcases primary with e | rows
  · rcases e with m | m
    · rcases alt with e2 | rows2
      · exact Or.inr ⟨e2.msg, rfl⟩
      · exact Or.inl ⟨_, rfl⟩
    · exact Or.inr ⟨m, rfl⟩
  · exact Or.inl ⟨_, rfl⟩

/-- C2: `filter_data` returns exactly the records satisfying the
conjunction of all supplied predicates; an omitted or empty predicate
(empty list, false flag, zero minimum) constrains nothing; a supplied
price range includes both endpoints; with every predicate omitted the
result is identical to the input. -/
theorem filter_data_conjunction (df : List CleanRecord)
    (cities areas room_types : Option (List String)) (pr : Option (ℚ × ℚ))
    (minRev minRat : ℚ) (gf cert : Bool) (c : CleanRecord) :
    (c ∈ filter_data df cities areas room_types pr minRev minRat gf cert ↔
      c ∈ df ∧
      (∀ v, cities = some v → v ≠ [] → c.city ∈ v) ∧
      (∀ v, areas = some v → v ≠ [] → c.area ∈ v) ∧
      (∀ v, room_types = some v → v ≠ [] → c.room_type_decoded ∈ v) ∧
      (∀ lo hi, pr = some (lo, hi) → ∃ p, c.price_clean = some p ∧ lo ≤ p ∧ p ≤ hi) ∧
      (0 < minRev → ∃ p, c.total_reviewers = some p ∧ minRev ≤ p) ∧
      (0 < minRat → ∃ p, c.consumer_clean = some p ∧ minRat ≤ p) ∧
      (gf = true → c.guest_favourite = true) ∧
      (cert = true → c.host_certified = true)) ∧
    filter_data df none none none none 0 0 false false = df := by
  refine ⟨mem_filter_data, ?_⟩
  with_unfolding_all rfl

/-- Witness for C2: the Tokyo row passes a conjunction of a city list, an
inclusive price range containing its price, and positive review/rating
minimums it meets. -/
theorem filter_data_conjunction_witness :
    cleanRecord sampleTokyo ∈
      filter_data [cleanRecord sampleTokyo, cleanRecord sampleUnknownCity]
        (some ["Tokyo"]) none none (some (0, 2000)) 1 1 false false := by
  refine (filter_data_conjunction [cleanRecord sampleTokyo, cleanRecord sampleUnknownCity]
      (some ["Tokyo"]) none none (some (0, 2000)) 1 1 false false
      (cleanRecord sampleTokyo)).1.mpr
    ⟨List.mem_cons_self _ _, ?_, fun v hv => Option.noConfusion hv,
      fun v hv => Option.noConfusion hv, ?_, ?_, ?_, ?_, ?_⟩
  · intro v hv _
    injection hv with hv2
    subst hv2
    with_unfolding_all decide
  · intro lo hi h
    injection h with h2
    obtain ⟨h3, h4⟩ := Prod.mk.inj h2
    subst h3; subst h4
    exact ⟨1250, by with_unfolding_all decide, by with_unfolding_all decide,
      by with_unfolding_all decide⟩
  · intro h
    exact ⟨12, by with_unfolding_all decide, by with_unfolding_all decide⟩
  · intro h
    exact ⟨Rat.divInt 13 2, by with_unfolding_all decide, by with_unfolding_all decide⟩
  · intro h
    with_unfolding_all decide
  · intro h
    with_unfolding_all decide

/-- C5: on an empty record set both metric functions return zero for every
numeric metric and `"N/A"` for every city-valued metric, and the
best-value computation maps a city whose mean price is missing or not
greater than zero to value 0 instead of dividing by it. -/
theorem metrics_empty_defaults :
    calculate_guest_metrics [] = ⟨0, some 0, some 0, 0, "N/A", "N/A"⟩ ∧
    calculate_host_metrics [] = ⟨0, some 0, 0, some 0, 0, "N/A"⟩ ∧
    (∀ (g : List CleanRecord) (m : ℚ),
      omean (g.map (fun r => r.price_clean)) = some m → ¬ 0 < m → cityValue g = some 0) ∧
    (∀ g : List CleanRecord,
      omean (g.map (fun r => r.price_clean)) = none → cityValue g = some 0) := by
  refine ⟨rfl, rfl, ?_, ?_⟩
  · intro g m h hm
    unfold cityValue
    rw [h]
    simp [hm]
  · intro g h
    unfold cityValue
    rw [h]

/-- Witness for C5's value-guard clauses: a one-row city with mean price 0,
and one with a missing mean price, both get value 0. -/
theorem metrics_empty_defaults_witness :
    cityValue [cleanRecord sampleZeroPrice] = some 0 ∧
    cityValue [cleanRecord sampleNoPrice] = some 0 :=
  ⟨metrics_empty_defaults.2.2.1 [cleanRecord sampleZeroPrice] 0
      (by with_unfolding_all decide) (by with_unfolding_all decide),
    metrics_empty_defaults.2.2.2 [cleanRecord sampleNoPrice]
      (by with_unfolding_all decide)⟩

/-- C9: `filter_data` returns an order-preserving, duplicate-free
subsequence of its input — every output record is an input record, no
record appears more often than in the input — and an empty result is a
valid outcome (the embedding is pure, so the input list itself is never
modified). -/
theorem filter_data_frame_props (df : List CleanRecord)
    (cities areas room_types : Option (List String)) (pr : Option (ℚ × ℚ))
    (minRev minRat : ℚ) (gf cert : Bool) :
    (filter_data df cities areas room_types pr minRev minRat gf cert).Sublist df ∧
    (∀ c : CleanRecord,
      (filter_data df cities areas room_types pr minRev minRat gf cert).count c
        ≤ df.count c) ∧
    filter_data [cleanRecord sampleTokyo] (some ["Berlin"]) none none none 0 0 false false
      = [] := by
  refine ⟨filter_data_sublist, fun c => filter_data_sublist.count_le c, ?_⟩
  with_unfolding_all decide

/-- C10: when a price range is supplied, or a positive minimum rating or
review count, every record whose corresponding cleaned field is the
missing sentinel is excluded from the result. -/
theorem missing_sentinel_excluded (df : List CleanRecord)
    (cities areas room_types : Option (List String)) (pr : Option (ℚ × ℚ))
    (minRev minRat : ℚ) (gf cert : Bool) (c : CleanRecord) :
    (∀ lo hi, pr = some (lo, hi) → c.price_clean = none →
      c ∉ filter_data df cities areas room_types pr minRev minRat gf cert) ∧
    (0 < minRat → c.consumer_clean = none →
      c ∉ filter_data df cities areas room_types pr minRev minRat gf cert) ∧
    (0 < minRev → c.total_reviewers = none →
      c ∉ filter_data df cities areas room_types pr minRev minRat gf cert) := by
  refine ⟨?_, ?_, ?_⟩
  · intro lo hi hpr hnone hmem
    obtain ⟨-, -, -, -, hp, -, -, -, -⟩ := mem_filter_data.mp hmem
    obtain ⟨p, hps, -⟩ := hp lo hi hpr
    rw [hnone] at hps
    exact Option.noConfusion hps
  · intro hrat hnone hmem
    obtain ⟨-, -, -, -, -, -, hp, -, -⟩ := mem_filter_data.mp hmem
    obtain ⟨p, hps, -⟩ := hp hrat
    rw [hnone] at hps
    exact Option.noConfusion hps
  · intro hrev hnone hmem
    obtain ⟨-, -, -, -, -, hp, -, -, -⟩ := mem_filter_data.mp hmem
    obtain ⟨p, hps, -⟩ := hp hrev
    rw [hnone] at hps
    exact Option.noConfusion hps

/-- Witness for C10: the row with an unparsable price is excluded as soon
as a price range is supplied, even one as wide as `[0, 1000]`. -/
theorem missing_sentinel_excluded_witness :
    cleanRecord sampleNoPrice ∉
      filter_data [cleanRecord sampleNoPrice] none none none (some (0, 1000))
        0 0 false false :=
  (missing_sentinel_excluded [cleanRecord sampleNoPrice] none none none (some (0, 1000))
      0 0 false false (cleanRecord sampleNoPrice)).1 0 1000 rfl (by decide)

end AirBnb
